import Mathlib

/-!
Verification of the Top SQL scraper of `breezewish/mockngm`
(`src/topsql/scraper.go`): a shallow embedding of the reconnecting
scrape stream (`backoffScrape` with its helpers `scrape`,
`scrapeTiDBRecord`, `scrapeTiKVRecord`, `close`), the `Scraper.Run`
dispatch and the drain loops, together with a model of the generic
retry driver `utils.WithRetryBackoff`.

The network environment (dial outcomes, subscribe outcomes, `Recv`
results) is supplied as explicit oracles, so every function of the
embedding is a pure, executable Lean function of the Go function it
embeds.
-/

namespace Mockngm

/-- Component kinds of `utils.Component.Kind` as dispatched on in
`scraper.go`: the two recognized kinds, plus `other` standing for any
unrecognized kind (the `default` branches). -/
inductive Kind
  | tidb
  | tikv
  | other
deriving DecidableEq

/-- A subscription client handle, tagged with its dynamic type
(`tipb.TopSQLPubSubClient` vs `resource_usage_agent.ResourceMeteringPubSubClient`)
and the id of the transport connection it was created from.
Models the `interface{}`-typed field `bo.client`. -/
inductive ClientHandle
  | tidbClient (connId : Nat)
  | tikvClient (connId : Nat)
deriving DecidableEq

/-- A stream handle, tagged with its dynamic type
(`tipb.TopSQLPubSub_SubscribeClient` vs
`resource_usage_agent.ResourceMeteringPubSub_SubscribeClient`) and the id
of the transport connection it belongs to. Models the `interface{}`-typed
field `bo.stream`. -/
inductive StreamHandle
  | tidbStream (connId : Nat)
  | tikvStream (connId : Nat)
deriving DecidableEq

/-- A record value boxed in the `interface{}`-typed named return of
`backoffScrape`. The tag is the dynamic type (`*tipb.TopSQLSubResponse`
vs `*resource_usage_agent.ResourceUsageRecord`); the `Option Nat`
payload models the pointer itself, with `none` standing for a nil
pointer boxed in a non-nil interface value (which is what the Go
assignment `record, err = stream.Recv()` produces on a `Recv` error). -/
inductive RecordVal
  | tidbRec (payload : Option Nat)
  | tikvRec (payload : Option Nat)
deriving DecidableEq

/-- The mutable connection state of a `backoffScrape` value: the fields
`conn`, `client`, `stream` of the Go struct. `conn` is a transport
connection id (`none` = nil pointer). -/
structure BoState where
  conn : Option Nat
  client : Option ClientHandle
  stream : Option StreamHandle
deriving DecidableEq

/-- The connection state right after `newBackoffScrape`: all three
handle fields are Go zero values (nil). -/
def initState : BoState := ⟨none, none, none⟩

/-- Constant `maxRetryTimes: 8` set by `newBackoffScrape`. -/
def maxRetryTimes : Nat := 8

/-- Constant `firstWaitTime: 2 * time.Second` set by `newBackoffScrape`,
in seconds. -/
def firstWaitTime : Nat := 2

/-- Oracle for one attempt of the retry closure in `backoffScrape`:
whether `dial` succeeds, whether the kind-specific `Subscribe` call
succeeds, and what the single `Recv` on the freshly created stream
returns (`none` = error / nil record). -/
structure AttemptEnv where
  dialOk : Bool
  subOk : Bool
  recv : Option Nat
deriving DecidableEq

/-- The ways a single attempt of the `backoffScrape` closure fails for
the two recognized kinds: the dial fails, or the kind-specific
`Subscribe` call fails, or the first `Recv` on the fresh stream fails.
For the TiDB and TiKV branches the closure returns false exactly under
this condition. -/
def attemptFails (e : AttemptEnv) : Prop :=
  e.dialOk = false ∨ e.subOk = false ∨ e.recv = none

/-- Result of one run of the retry driver: the final threaded state,
whether it reported success, how many times the attempt function was
called, and how many inter-attempt waits completed without
interruption. -/
structure RetryResult (σ : Type) where
  state : σ
  ok : Bool
  calls : Nat
  waits : Nat
deriving DecidableEq

/-- Modelled from the spec: the loop of `utils.WithRetryBackoff`, whose
source is not part of this repository snapshot (only its caller in
`scraper.go` is). Following spec §4.1: call `attempt i`; on success
return true immediately; on failure, if attempts remain, wait (the wait
is interruptible: if the cancellation token fires during it, return
false without further attempts), then try `attempt (i+1)`; after
`maxAttempts` total failed attempts return false. Wait durations are
abstracted to a count of completed waits; `cancel i = true` means the
token fires during the wait that follows attempt `i`. State `σ` is
threaded through the attempt function to model its side effects. -/
def retryAux {σ : Type} (cancel : Nat → Bool) (attempt : Nat → σ → σ × Bool) :
    Nat → Nat → σ → RetryResult σ
  | 0, _, s => ⟨s, false, 0, 0⟩
  | n + 1, i, s =>
    let r := attempt i s
    if r.2 then ⟨r.1, true, 1, 0⟩
    else if n = 0 then ⟨r.1, false, 1, 0⟩
    else if cancel i then ⟨r.1, false, 1, 0⟩
    else
      let rest := retryAux cancel attempt n (i + 1) r.1
      ⟨rest.state, rest.ok, rest.calls + 1, rest.waits + 1⟩

/-- Modelled from the spec: `utils.WithRetryBackoff(ctx, maxRetryTimes,
firstWaitTime, attempt)` (spec §4.1). `firstWait` only parameterizes the
abstracted wait durations and does not influence control flow. -/
def WithRetryBackoff {σ : Type} (cancel : Nat → Bool) (maxAttempts : Nat)
    (_firstWait : Nat) (attempt : Nat → σ → σ × Bool) (s : σ) : RetryResult σ :=
  retryAux cancel attempt maxAttempts 0 s

/-- One attempt of the closure passed to `utils.WithRetryBackoff` by
`backoffScrape` (`scraper.go` lines 204-255), acting on the connection
state and on the `interface{}`-typed named return `record`:
tear down any stale connection state (guarded by `bo.conn != nil`), dial
(the fresh connection is identified by the attempt index), and in the
kind branch create the client, subscribe, and perform one `Recv`,
returning true on success. The unrecognized-kind `default` branch
returns true having only set `conn`. On a `Recv` error the named return
is assigned the typed nil record before returning false. -/
def attemptStep (kind : Kind) (env : Nat → AttemptEnv) (retried : Nat)
    (s : BoState) (record : Option RecordVal) : BoState × Option RecordVal × Bool :=
  let s := if s.conn.isSome then initState else s
  if (env retried).dialOk = false then
    (s, record, false)
  else
    let s := { s with conn := some retried }
    match kind with
    | Kind.tidb =>
      let s := { s with client := some (ClientHandle.tidbClient retried) }
      if (env retried).subOk = false then
        (s, record, false)
      else
        let s := { s with stream := some (StreamHandle.tidbStream retried) }
        match (env retried).recv with
        | none => (s, some (RecordVal.tidbRec none), false)
        | some p => (s, some (RecordVal.tidbRec (some p)), true)
    | Kind.tikv =>
      let s := { s with client := some (ClientHandle.tikvClient retried) }
      if (env retried).subOk = false then
        (s, record, false)
      else
        let s := { s with stream := some (StreamHandle.tikvStream retried) }
        match (env retried).recv with
        | none => (s, some (RecordVal.tikvRec none), false)
        | some p => (s, some (RecordVal.tikvRec (some p)), true)
    | Kind.other => (s, record, true)

/-- The closure of `backoffScrape` adapted to the state-threading shape
expected by the retry driver: the threaded state is the pair of the
connection state and the named return `record`. -/
def boAttempt (kind : Kind) (env : Nat → AttemptEnv) (i : Nat)
    (p : BoState × Option RecordVal) : (BoState × Option RecordVal) × Bool :=
  let r := attemptStep kind env i p.1 p.2
  ((r.1, r.2.1), r.2.2)

/-- Embeds `backoffScrape` (`scraper.go` lines 203-259) with the full retry
result exposed: runs the retry driver with `bo.maxRetryTimes` and
`bo.firstWaitTime` over the attempt closure, starting from the current
connection state and a nil named return. The driver's boolean result is
discarded by the Go code; `backoffScrape` returns whatever the named
return holds. -/
def backoffScrapeR (kind : Kind) (env : Nat → AttemptEnv) (cancel : Nat → Bool)
    (s : BoState) : RetryResult (BoState × Option RecordVal) :=
  WithRetryBackoff cancel maxRetryTimes firstWaitTime (boAttempt kind env) (s, none)

/-- Embeds `backoffScrape`: the resulting connection state and the returned
record. -/
def backoffScrape (kind : Kind) (env : Nat → AttemptEnv) (cancel : Nat → Bool)
    (s : BoState) : BoState × Option RecordVal :=
  (backoffScrapeR kind env cancel s).state

/-- Embeds `scrape` (`scraper.go` lines 186-201): if a stream handle is
present, switch on its dynamic type and perform one `Recv` (`liveRecv`
is that read's result, `none` = error or nil record); a non-nil record
is returned directly with the state unchanged. Otherwise fall through to
`backoffScrape`. -/
def scrape (kind : Kind) (env : Nat → AttemptEnv) (cancel : Nat → Bool)
    (liveRecv : Option Nat) (s : BoState) : BoState × Option RecordVal :=
  match s.stream with
  | some (StreamHandle.tidbStream _) =>
    match liveRecv with
    | some p => (s, some (RecordVal.tidbRec (some p)))
    | none => backoffScrape kind env cancel s
  | some (StreamHandle.tikvStream _) =>
    match liveRecv with
    | some p => (s, some (RecordVal.tikvRec (some p)))
    | none => backoffScrape kind env cancel s
  | none => backoffScrape kind env cancel s

/-- The type assertion of `scrapeTiDBRecord` (`scraper.go` lines
168-175) applied to the `interface{}` value returned by `scrape`: a
non-nil interface holding a `*tipb.TopSQLSubResponse` passes through
(as the possibly-nil pointer payload); anything else yields nil. -/
def scrapeTiDBRecordOf : Option RecordVal → Option Nat
  | some (RecordVal.tidbRec p) => p
  | _ => none

/-- The type assertion of `scrapeTiKVRecord` (`scraper.go` lines
177-184) applied to the `interface{}` value returned by `scrape`. -/
def scrapeTiKVRecordOf : Option RecordVal → Option Nat
  | some (RecordVal.tikvRec p) => p
  | _ => none

/-- Embeds `scrapeTiDBRecord`: run `scrape` and filter through the
`*tipb.TopSQLSubResponse` type assertion. -/
def scrapeTiDBRecord (kind : Kind) (env : Nat → AttemptEnv) (cancel : Nat → Bool)
    (liveRecv : Option Nat) (s : BoState) : BoState × Option Nat :=
  let r := scrape kind env cancel liveRecv s
  (r.1, scrapeTiDBRecordOf r.2)

/-- Embeds `scrapeTiKVRecord`: run `scrape` and filter through the
`*resource_usage_agent.ResourceUsageRecord` type assertion. -/
def scrapeTiKVRecord (kind : Kind) (env : Nat → AttemptEnv) (cancel : Nat → Bool)
    (liveRecv : Option Nat) (s : BoState) : BoState × Option Nat :=
  let r := scrape kind env cancel liveRecv s
  (r.1, scrapeTiKVRecordOf r.2)

/-- Embeds `backoffScrape.close` (`scraper.go` lines 261-268): if `conn` is
non-nil, close it and clear all three fields; otherwise do nothing. The
second component lists the ids of the transport connections released by
this call, to account for double-release. -/
def close (s : BoState) : BoState × List Nat :=
  match s.conn with
  | none => (s, [])
  | some cid => (initState, [cid])

/-- Observable behavior of `Scraper.Run` (`scraper.go` lines 55-65)
after the start log: dispatch on the target kind to a drain loop, or
panic on an unrecognized kind. -/
inductive RunBehavior
  | drainTiDB
  | drainTiKV
  | panics (msg : String)
deriving DecidableEq

/-- The dispatch switch of `Scraper.Run`. -/
def Run : Kind → RunBehavior
  | Kind.tidb => RunBehavior.drainTiDB
  | Kind.tikv => RunBehavior.drainTiKV
  | Kind.other => RunBehavior.panics "unexpected scrape target"

/-- Per-iteration network oracle for one pass of a drain loop: the
result of the `Recv` on the live stream (if one exists), and the
attempt/cancellation oracles for the `backoffScrape` run of that
iteration (if one happens). -/
structure IterEnv where
  liveRecv : Option Nat
  attempts : Nat → AttemptEnv
  cancel : Nat → Bool

/-- One iteration of the `scrapeTiDB` drain loop body: the call
`bo.scrapeTiDBRecord()` under the i-th iteration's oracle. -/
def scrapeStepTiDB (ienv : Nat → IterEnv) (i : Nat) (s : BoState) :
    BoState × Option Nat :=
  scrapeTiDBRecord Kind.tidb (ienv i).attempts (ienv i).cancel (ienv i).liveRecv s

/-- One iteration of the `scrapeTiKV` drain loop body. -/
def scrapeStepTiKV (ienv : Nat → IterEnv) (i : Nat) (s : BoState) :
    BoState × Option Nat :=
  scrapeTiKVRecord Kind.tikv (ienv i).attempts (ienv i).cancel (ienv i).liveRecv s

/-- The drain loop of `Scraper.scrapeTiDB` / `Scraper.scrapeTiKV`
(`scraper.go` lines 74-87 / 96-108), fuelled: repeatedly run the step;
on a nil record return the iteration index at which the loop exited
(= the number of records consumed) and the final connection state; a
non-nil record continues the loop (the throughput logging has no effect
on control flow and is omitted). `none` means the fuel ran out before
the loop exited. -/
def drainAux (step : Nat → BoState → BoState × Option Nat) :
    Nat → Nat → BoState → Option (Nat × BoState)
  | 0, _, _ => none
  | fuel + 1, i, s =>
    let r := step i s
    match r.2 with
    | none => some (i, r.1)
    | some _ => drainAux step fuel (i + 1) r.1

/-- Embeds `Scraper.scrapeTiDB`: construct the stream state via
`newBackoffScrape`, drain until a nil record, then run the deferred
`bo.close()` on the final state. -/
def scrapeTiDB (ienv : Nat → IterEnv) (fuel : Nat) : Option (Nat × BoState) :=
  match drainAux (scrapeStepTiDB ienv) fuel 0 initState with
  | none => none
  | some (i, s) => some (i, (close s).1)

/-- Embeds `Scraper.scrapeTiKV`, symmetric to `scrapeTiDB`. -/
def scrapeTiKV (ienv : Nat → IterEnv) (fuel : Nat) : Option (Nat × BoState) :=
  match drainAux (scrapeStepTiKV ienv) fuel 0 initState with
  | none => none
  | some (i, s) => some (i, (close s).1)

/-- An attempt function whose outcome depends only on the attempt index
(state-free), used to express properties of the retry driver over bare
outcome sequences `f`. -/
def pureAttempt (f : Nat → Bool) : Nat → Unit → Unit × Bool := fun _i u => (u, f _i)

/-- The all-or-none shape of the connection state asserted by the spec:
either all three of `conn`, `client`, `stream` are populated, or all
three are absent. -/
def allOrNone (s : BoState) : Prop :=
  (s.conn.isSome ∧ s.client.isSome ∧ s.stream.isSome) ∨
  (s.conn = none ∧ s.client = none ∧ s.stream = none)

/-- The shape the code actually maintains: the triple is populated in
prefix order — a client implies a connection and a stream implies a
client (hence a connection). -/
def prefixPopulated (s : BoState) : Prop :=
  (s.client.isSome → s.conn.isSome) ∧ (s.stream.isSome → s.client.isSome)

instance (s : BoState) : Decidable (allOrNone s) := by
  unfold allOrNone; infer_instance

instance (s : BoState) : Decidable (prefixPopulated s) := by
  unfold prefixPopulated; infer_instance

/-! ## Helper lemmas -/

/-- When a stale connection is present, the attempt closure tears it
down first, so the attempt computes exactly as it would from the empty
connection state. -/
theorem attemptStep_conn_clear (kind : Kind) (env : Nat → AttemptEnv) (i : Nat)
    (s : BoState) (record : Option RecordVal) (h : s.conn.isSome) :
    attemptStep kind env i s record = attemptStep kind env i initState record := by
  simp only [attemptStep, initState, h, Option.isSome_none, if_true, Bool.false_eq_true,
    if_false]

/-- Every state produced by the attempt closure starting from the empty
connection state is prefix-populated. -/
theorem attemptStep_init_prefixPopulated (kind : Kind) (env : Nat → AttemptEnv)
    (i : Nat) (record : Option RecordVal) :
    prefixPopulated (attemptStep kind env i initState record).1 := by
  unfold attemptStep
  cases hd : (env i).dialOk <;> cases kind <;> cases hs : (env i).subOk <;>
    cases hr : (env i).recv <;>
      simp_all [initState, prefixPopulated]

/-- The attempt closure preserves prefix-population of the connection
state. -/
theorem attemptStep_prefixPopulated (kind : Kind) (env : Nat → AttemptEnv)
    (i : Nat) (s : BoState) (record : Option RecordVal) (h : prefixPopulated s) :
    prefixPopulated (attemptStep kind env i s record).1 := by
  obtain ⟨c, cl, st⟩ := s
  cases c with
  | some cid =>
    rw [attemptStep_conn_clear kind env i ⟨some cid, cl, st⟩ record (by simp)]
    exact attemptStep_init_prefixPopulated kind env i record
  | none =>
    obtain ⟨h1, h2⟩ := h
    cases cl with
    | some x => simp at h1
    | none =>
      cases st with
      | some y => simp at h2
      | none => exact attemptStep_init_prefixPopulated kind env i record

/-- The retry driver preserves any invariant that every attempt
preserves. -/
theorem retryAux_preserves {σ : Type} (P : σ → Prop) (cancel : Nat → Bool)
    (attempt : Nat → σ → σ × Bool) (hP : ∀ i s, P s → P (attempt i s).1) :
    ∀ n i s, P s → P (retryAux cancel attempt n i s).state := by
  intro n
  induction n with
  | zero => intro i s h; simpa [retryAux] using h
  | succ m ih =>
    intro i s h
    have h1 : P (attempt i s).1 := hP i s h
    simp only [retryAux]
    split
    · exact h1
    · split
      · exact h1
      · split
        · exact h1
        · exact ih (i + 1) (attempt i s).1 h1

/-- The result of the retry driver is unchanged when two starting states
give the same first attempt. -/
theorem retryAux_first_state (cancel : Nat → Bool) {σ : Type}
    (attempt : Nat → σ → σ × Bool) (n i : Nat) (s t : σ)
    (h : attempt i s = attempt i t) :
    retryAux cancel attempt (n + 1) i s = retryAux cancel attempt (n + 1) i t := by
  simp only [retryAux, h]

/-! ## Claim theorems -/

/-- C8: for every target kind that is neither TiDB nor TiKV, `Run`
dispatches to the `default` branch and panics with
"unexpected scrape target"; no drain loop is entered and nothing is
retried. -/
theorem C8_unknown_kind_panics (k : Kind) (h1 : k ≠ Kind.tidb) (h2 : k ≠ Kind.tikv) :
    Run k = RunBehavior.panics "unexpected scrape target" := by
  cases k with
  | tidb => exact absurd rfl h1
  | tikv => exact absurd rfl h2
  | other => rfl

/-- Witness for C8 at the concrete unrecognized kind. -/
theorem C8_unknown_kind_panics_witness :
    Run Kind.other = RunBehavior.panics "unexpected scrape target" :=
  C8_unknown_kind_panics Kind.other (by decide) (by decide)

/-- C7: the kind-specific wrappers demultiplex by dynamic type: a
non-nil result of `scrapeTiDBRecord`'s assertion can only originate from
a record of the TiDB response type, a non-nil result of
`scrapeTiKVRecord`'s assertion only from a record of the TiKV response
type, and each wrapper maps any record of the other kind to nil — over
every possible value of `scrape`'s `interface{}` result. -/
theorem C7_record_demux (r : Option RecordVal) :
    (∀ x, scrapeTiDBRecordOf r = some x → r = some (RecordVal.tidbRec (some x))) ∧
    (∀ x, scrapeTiKVRecordOf r = some x → r = some (RecordVal.tikvRec (some x))) ∧
    (∀ p, scrapeTiDBRecordOf (some (RecordVal.tikvRec p)) = none) ∧
    (∀ p, scrapeTiKVRecordOf (some (RecordVal.tidbRec p)) = none) := by
  refine ⟨?_, ?_, fun p => rfl, fun p => rfl⟩ <;>
    · intro x hx
      cases r with
      | none => simp [scrapeTiDBRecordOf, scrapeTiKVRecordOf] at hx
      | some v =>
        cases v <;> simp_all [scrapeTiDBRecordOf, scrapeTiKVRecordOf]

/-- Witness for C7 at a concrete TiDB-shaped record. -/
theorem C7_record_demux_witness :
    (some (RecordVal.tidbRec (some 0)) : Option RecordVal) =
      some (RecordVal.tidbRec (some 0)) :=
  (C7_record_demux (some (RecordVal.tidbRec (some 0)))).1 0 rfl

/-- C10: a record of the wrong dynamic type is mapped to nil by the
kind-specific wrappers, exactly as the terminal (retry-exhaustion) nil
is, and the drain loop exits permanently at the first nil step result —
so at the drain-loop interface a wrong-shaped record is
indistinguishable from the terminal signal. -/
theorem C10_wrong_shape_is_terminal :
    (∀ p, scrapeTiDBRecordOf (some (RecordVal.tikvRec p)) = none) ∧
    (∀ p, scrapeTiKVRecordOf (some (RecordVal.tidbRec p)) = none) ∧
    scrapeTiDBRecordOf none = none ∧
    scrapeTiKVRecordOf none = none ∧
    (∀ (step : Nat → BoState → BoState × Option Nat) (fuel i : Nat) (s : BoState),
      (step i s).2 = none →
      drainAux step (fuel + 1) i s = some (i, (step i s).1)) := by
  refine ⟨fun p => rfl, fun p => rfl, rfl, rfl, ?_⟩
  intro step fuel i s h
  simp only [drainAux, h]

/-- Witness for C10: the drain loop exits at once on a step that
produces a nil record. -/
theorem C10_wrong_shape_is_terminal_witness :
    drainAux (fun _ s => (s, none)) 1 0 initState = some (0, initState) :=
  C10_wrong_shape_is_terminal.2.2.2.2 (fun _ s => (s, none)) 0 0 initState rfl

/-- C1 fails as stated: starting from a freshly constructed state, a
`backoffScrape` run in which every attempt dials successfully but fails
the Subscribe call leaves the connection state partially populated —
`conn` and `client` set from the final attempt, `stream` nil. -/
theorem C1_counterexample_not_all_or_none :
    ¬ allOrNone
      (backoffScrape Kind.tidb (fun _ => ⟨true, false, none⟩) (fun _ => false)
        initState).1 := by
  decide

/-- C1 (amended): the connection state is prefix-populated at every
observable point — a client implies a connection and a stream implies a
client — and it is all-absent after construction and after `close()`;
but after a completed `backoffScrape` whose final attempt dialled
successfully and then failed (or ran the unrecognized-kind branch) it
may be genuinely partially populated, so the all-or-none form of the
claim does not hold. -/
theorem C1_amended_prefix_populated (kind : Kind) (env : Nat → AttemptEnv)
    (cancel : Nat → Bool) (liveRecv : Option Nat) (s : BoState)
    (h : prefixPopulated s) :
    prefixPopulated initState ∧
    prefixPopulated (backoffScrape kind env cancel s).1 ∧
    prefixPopulated (scrape kind env cancel liveRecv s).1 ∧
    (close s).1 = initState := by
  have hb : prefixPopulated (backoffScrape kind env cancel s).1 := by
    exact retryAux_preserves (fun p => prefixPopulated p.1) cancel (boAttempt kind env)
      (fun i p hp => attemptStep_prefixPopulated kind env i p.1 p.2 hp)
      maxRetryTimes 0 (s, none) h
  refine ⟨by simp [prefixPopulated, initState], hb, ?_, ?_⟩
  · rcases hst : s.stream with _ | sh
    · simpa [scrape, hst] using hb
    · cases sh <;> cases liveRecv <;>
        simp [scrape, hst] <;> first | exact hb | exact h
  · obtain ⟨c, cl, st⟩ := s
    cases c with
    | some cid => rfl
    | none =>
      obtain ⟨h1, h2⟩ := h
      cases cl with
      | some x => simp at h1
      | none =>
        cases st with
        | some y => simp at h2
        | none => rfl

/-- Witness for the amended C1 at concrete inputs. -/
theorem C1_amended_prefix_populated_witness :
    prefixPopulated initState ∧
    prefixPopulated
      (backoffScrape Kind.tidb (fun _ => ⟨true, true, some 1⟩) (fun _ => false)
        initState).1 ∧
    prefixPopulated
      (scrape Kind.tidb (fun _ => ⟨true, true, some 1⟩) (fun _ => false) none
        initState).1 ∧
    (close initState).1 = initState :=
  C1_amended_prefix_populated Kind.tidb (fun _ => ⟨true, true, some 1⟩)
    (fun _ => false) none initState (by decide)

/-- C4: when a live stream exists and its read fails, the same `scrape`
call falls through to `backoffScrape` instead of surfacing an error;
the resulting reconnection run computes exactly as from an empty
connection state, because each attempt with leftover state begins by
closing the old connection and clearing `conn`, `client` and `stream`
before dialling a fresh connection and subscribing — so the stale
stream handle is never read again. -/
theorem C4_read_failure_reconnects_fresh (kind : Kind) (env : Nat → AttemptEnv)
    (cancel : Nat → Bool) (s : BoState) (h1 : s.stream.isSome)
    (h2 : s.conn.isSome) :
    scrape kind env cancel none s = backoffScrape kind env cancel s ∧
    backoffScrape kind env cancel s = backoffScrape kind env cancel initState ∧
    (∀ i s' record, s'.conn.isSome →
      attemptStep kind env i s' record = attemptStep kind env i initState record) := by
  refine ⟨?_, ?_, fun i s' record h => attemptStep_conn_clear kind env i s' record h⟩
  · obtain ⟨sh, hst⟩ := Option.isSome_iff_exists.mp h1
    cases sh <;> simp [scrape, hst]
  · have hb : boAttempt kind env 0 (s, none) = boAttempt kind env 0 (initState, none) := by
      unfold boAttempt
      rw [attemptStep_conn_clear kind env 0 s none h2]
    exact congrArg (fun r => r.state)
      (retryAux_first_state cancel (boAttempt kind env) 7 0 (s, none)
        (initState, none) hb)

/-- Witness for C4 at a concrete populated state. -/
theorem C4_read_failure_reconnects_fresh_witness :
    scrape Kind.tidb (fun _ => ⟨false, false, none⟩) (fun _ => false) none
      ⟨some 0, some (ClientHandle.tidbClient 0), some (StreamHandle.tidbStream 0)⟩ =
    backoffScrape Kind.tidb (fun _ => ⟨false, false, none⟩) (fun _ => false)
      ⟨some 0, some (ClientHandle.tidbClient 0), some (StreamHandle.tidbStream 0)⟩ :=
  (C4_read_failure_reconnects_fresh Kind.tidb (fun _ => ⟨false, false, none⟩)
    (fun _ => false)
    ⟨some 0, some (ClientHandle.tidbClient 0), some (StreamHandle.tidbStream 0)⟩
    (by decide) (by decide)).1

/-- C5: `close` is idempotent on every reachable (prefix-populated)
state: the first call leaves the all-absent state, releasing the
transport connection exactly when one was populated; a second call
changes nothing and releases nothing, so there is no double-release. -/
theorem C5_close_idempotent (s : BoState) (h : prefixPopulated s) :
    (close s).1 = initState ∧
    (close (close s).1).1 = initState ∧
    (close (close s).1).2 = [] ∧
    (∀ cid, s.conn = some cid → (close s).2 = [cid]) ∧
    (s.conn = none → (close s).2 = []) := by
  obtain ⟨c, cl, st⟩ := s
  cases c with
  | some cid =>
    refine ⟨rfl, rfl, rfl, ?_, ?_⟩
    · intro cid' hc
      injection hc with hc
      rw [hc]
      rfl
    · intro hc
      exact absurd hc (by simp)
  | none =>
    obtain ⟨h1, h2⟩ := h
    cases cl with
    | some x => simp at h1
    | none =>
      cases st with
      | some y => simp at h2
      | none => exact ⟨rfl, rfl, rfl, fun cid hc => by simp at hc, fun _ => rfl⟩

/-- Witness for C5 at a concrete fully populated state. -/
theorem C5_close_idempotent_witness :
    (close ⟨some 3, some (ClientHandle.tidbClient 3),
      some (StreamHandle.tidbStream 3)⟩).1 = initState :=
  (C5_close_idempotent
    ⟨some 3, some (ClientHandle.tidbClient 3), some (StreamHandle.tidbStream 3)⟩
    (by decide)).1

/-- A first attempt that succeeds makes the retry driver return success
at once, with one call and no completed wait. -/
theorem retryAux_first_success {σ : Type} (cancel : Nat → Bool)
    (attempt : Nat → σ → σ × Bool) (n i : Nat) (s : σ)
    (h : (attempt i s).2 = true) :
    retryAux cancel attempt (n + 1) i s = ⟨(attempt i s).1, true, 1, 0⟩ := by
  simp only [retryAux, h, if_true]

/-- Outcome-sequence characterization of the retry driver on success:
`k` failures followed by a success yield success with `k + 1` calls and
`k` completed waits. -/
theorem retryAux_pure_success (f : Nat → Bool) (cancel : Nat → Bool)
    (hc : ∀ j, cancel j = false) :
    ∀ (k n i : Nat), k < n → (∀ j, i ≤ j → j < i + k → f j = false) →
      f (i + k) = true →
      retryAux cancel (pureAttempt f) n i () = ⟨(), true, k + 1, k⟩ := by
  intro k
  induction k with
  | zero =>
    intro n i hn hf hfk
    obtain ⟨m, rfl⟩ : ∃ m, n = m + 1 := ⟨n - 1, by omega⟩
    simp only [Nat.add_zero] at hfk
    simp only [retryAux, pureAttempt]
    simp [hfk]
  | succ k ih =>
    intro n i hn hf hfk
    obtain ⟨m, rfl⟩ : ∃ m, n = m + 1 := ⟨n - 1, by omega⟩
    have hfi : f i = false := hf i le_rfl (by omega)
    have hm : m ≠ 0 := by omega
    have hrec := ih m (i + 1) (by omega) (fun j hj1 hj2 => hf j (by omega) (by omega))
      (by rw [show i + 1 + k = i + (k + 1) by omega]; exact hfk)
    simp only [retryAux, pureAttempt]
    simp [hfi, hm, hc i, hrec]

/-- Outcome-sequence characterization of the retry driver under
cancellation: `k + 1` failures with the token firing during the wait
after the last of them yield failure with exactly `k + 1` calls. -/
theorem retryAux_pure_cancel (f : Nat → Bool) (cancel : Nat → Bool) :
    ∀ (k n i : Nat), k + 1 < n → (∀ j, i ≤ j → j ≤ i + k → f j = false) →
      (∀ j, i ≤ j → j < i + k → cancel j = false) → cancel (i + k) = true →
      retryAux cancel (pureAttempt f) n i () = ⟨(), false, k + 1, k⟩ := by
  intro k
  induction k with
  | zero =>
    intro n i hn hf hcl hck
    obtain ⟨m, rfl⟩ : ∃ m, n = m + 1 := ⟨n - 1, by omega⟩
    have hm : m ≠ 0 := by omega
    have hfi : f i = false := hf i le_rfl (by omega)
    simp only [Nat.add_zero] at hck
    simp only [retryAux, pureAttempt]
    simp [hfi, hm, hck]
  | succ k ih =>
    intro n i hn hf hcl hck
    obtain ⟨m, rfl⟩ : ∃ m, n = m + 1 := ⟨n - 1, by omega⟩
    have hm : m ≠ 0 := by omega
    have hfi : f i = false := hf i le_rfl (by omega)
    have hci : cancel i = false := hcl i le_rfl (by omega)
    have hrec := ih m (i + 1) (by omega)
      (fun j hj1 hj2 => hf j (by omega) (by omega))
      (fun j hj1 hj2 => hcl j (by omega) (by omega))
      (by rw [show i + 1 + k = i + (k + 1) by omega]; exact hck)
    simp only [retryAux, pureAttempt]
    simp [hfi, hm, hci, hrec]

/-- For the TiDB kind, an attempt whose environment fails at any of the
three steps — dial, Subscribe, or the first `Recv` — reports failure. -/
theorem attemptStep_fails_tidb (env : Nat → AttemptEnv) (i : Nat) (s : BoState)
    (record : Option RecordVal) (h : attemptFails (env i)) :
    (attemptStep Kind.tidb env i s record).2.2 = false := by
  unfold attemptStep
  rcases h with hd | hs | hr
  · simp [hd]
  · cases hds : (env i).dialOk <;> simp [hds, hs]
  · cases hds : (env i).dialOk <;> cases hss : (env i).subOk <;>
      simp [hds, hss, hr]

/-- For the TiKV kind, an attempt whose environment fails at any of the
three steps reports failure. -/
theorem attemptStep_fails_tikv (env : Nat → AttemptEnv) (i : Nat) (s : BoState)
    (record : Option RecordVal) (h : attemptFails (env i)) :
    (attemptStep Kind.tikv env i s record).2.2 = false := by
  unfold attemptStep
  rcases h with hd | hs | hr
  · simp [hd]
  · cases hds : (env i).dialOk <;> simp [hds, hs]
  · cases hds : (env i).dialOk <;> cases hss : (env i).subOk <;>
      simp [hds, hss, hr]

/-- For the TiDB kind, a failing attempt keeps the named return nil at
the `scrapeTiDBRecord` interface: it either leaves the record unchanged
(dial or Subscribe failure) or assigns the typed nil record (`Recv`
failure), and the wrapper maps both to nil. -/
theorem attemptStep_record_nil_tidb (env : Nat → AttemptEnv) (i : Nat)
    (s : BoState) (record : Option RecordVal) (h : attemptFails (env i))
    (hr : scrapeTiDBRecordOf record = none) :
    scrapeTiDBRecordOf (attemptStep Kind.tidb env i s record).2.1 = none := by
  unfold attemptStep
  rcases h with hd | hs | hre
  · simp [hd, hr]
  · cases hds : (env i).dialOk <;> simp [hds, hs, hr]
  · cases hds : (env i).dialOk <;> cases hss : (env i).subOk <;>
      simp [hds, hss, hre, scrapeTiDBRecordOf] <;> exact hr

/-- For the TiKV kind, a failing attempt keeps the named return nil at
the `scrapeTiKVRecord` interface. -/
theorem attemptStep_record_nil_tikv (env : Nat → AttemptEnv) (i : Nat)
    (s : BoState) (record : Option RecordVal) (h : attemptFails (env i))
    (hr : scrapeTiKVRecordOf record = none) :
    scrapeTiKVRecordOf (attemptStep Kind.tikv env i s record).2.1 = none := by
  unfold attemptStep
  rcases h with hd | hs | hre
  · simp [hd, hr]
  · cases hds : (env i).dialOk <;> simp [hds, hs, hr]
  · cases hds : (env i).dialOk <;> cases hss : (env i).subOk <;>
      simp [hds, hss, hre, scrapeTiKVRecordOf] <;> exact hr

/-- When every attempt fails and the token never fires, the retry driver
runs all `n` attempts before reporting failure, and it preserves every
invariant of the threaded state that the failing attempts preserve. -/
theorem retryAux_allFail {σ : Type} (cancel : Nat → Bool)
    (attempt : Nat → σ → σ × Bool) (P : σ → Prop)
    (hf : ∀ i s, (attempt i s).2 = false)
    (hP : ∀ i s, P s → P (attempt i s).1)
    (hc : ∀ j, cancel j = false) :
    ∀ n, 1 ≤ n → ∀ i s, P s →
      (retryAux cancel attempt n i s).ok = false ∧
      (retryAux cancel attempt n i s).calls = n ∧
      P (retryAux cancel attempt n i s).state := by
  intro n
  induction n with
  | zero => intro h; omega
  | succ m ih =>
    intro _ i s hs
    have h1 : P (attempt i s).1 := hP i s hs
    rcases Nat.eq_zero_or_pos m with h0 | hpos
    · subst h0
      have heq : retryAux cancel attempt (0 + 1) i s = ⟨(attempt i s).1, false, 1, 0⟩ := by
        simp only [retryAux]
        simp [hf i s]
      rw [heq]
      exact ⟨rfl, rfl, h1⟩
    · have hrec := ih (by omega) (i + 1) (attempt i s).1 h1
      have heq : retryAux cancel attempt (m + 1) i s =
          ⟨(retryAux cancel attempt m (i + 1) (attempt i s).1).state,
           (retryAux cancel attempt m (i + 1) (attempt i s).1).ok,
           (retryAux cancel attempt m (i + 1) (attempt i s).1).calls + 1,
           (retryAux cancel attempt m (i + 1) (attempt i s).1).waits + 1⟩ := by
        simp only [retryAux]
        simp [hf i s, Nat.pos_iff_ne_zero.mp hpos, hc i]
      rw [heq]
      exact ⟨hrec.1, by rw [hrec.2.1], hrec.2.2⟩

/-- C3: for every outcome sequence with `k < 8` failures followed by a
success (and no cancellation), the retry driver used by `backoffScrape`
returns true and calls the attempt function exactly `k + 1` times; in
particular a first-call success returns immediately with zero completed
waits. -/
theorem C3_success_after_failures (f : Nat → Bool) (cancel : Nat → Bool) (k : Nat)
    (hk : k < maxRetryTimes) (hf : ∀ j, j < k → f j = false) (hfk : f k = true)
    (hc : ∀ j, cancel j = false) :
    (WithRetryBackoff cancel maxRetryTimes firstWaitTime (pureAttempt f) ()).ok =
      true ∧
    (WithRetryBackoff cancel maxRetryTimes firstWaitTime (pureAttempt f) ()).calls =
      k + 1 ∧
    (WithRetryBackoff cancel maxRetryTimes firstWaitTime (pureAttempt f) ()).waits =
      k := by
  have h := retryAux_pure_success f cancel hc k maxRetryTimes 0 hk
    (fun j hj1 hj2 => hf j (by omega)) (by simpa using hfk)
  have hR : WithRetryBackoff cancel maxRetryTimes firstWaitTime (pureAttempt f) () =
      ⟨(), true, k + 1, k⟩ := h
  rw [hR]
  exact ⟨rfl, rfl, rfl⟩

/-- Witness for C3: two failures then a success give three calls. -/
theorem C3_success_after_failures_witness :
    (WithRetryBackoff (fun _ => false) maxRetryTimes firstWaitTime
      (pureAttempt (fun j => decide (2 ≤ j))) ()).calls = 3 :=
  (C3_success_after_failures (fun j => decide (2 ≤ j)) (fun _ => false) 2
    (by decide) (fun j hj => by simp only [decide_eq_false_iff_not]; omega)
    (by decide) (fun _ => rfl)).2.1

/-- C6: if the cancellation token fires during the wait that follows the
`(k + 1)`-th call (all calls so far having failed), the retry driver
returns failure with exactly `k + 1` calls made — the next attempt never
happens. -/
theorem C6_cancel_mid_wait (f : Nat → Bool) (cancel : Nat → Bool) (k : Nat)
    (hk : k + 1 < maxRetryTimes) (hf : ∀ j, j ≤ k → f j = false)
    (hc1 : ∀ j, j < k → cancel j = false) (hc2 : cancel k = true) :
    (WithRetryBackoff cancel maxRetryTimes firstWaitTime (pureAttempt f) ()).ok =
      false ∧
    (WithRetryBackoff cancel maxRetryTimes firstWaitTime (pureAttempt f) ()).calls =
      k + 1 := by
  have h := retryAux_pure_cancel f cancel k maxRetryTimes 0 hk
    (fun j hj1 hj2 => hf j (by omega)) (fun j hj1 hj2 => hc1 j (by omega))
    (by simpa using hc2)
  have hR : WithRetryBackoff cancel maxRetryTimes firstWaitTime (pureAttempt f) () =
      ⟨(), false, k + 1, k⟩ := h
  rw [hR]
  exact ⟨rfl, rfl⟩

/-- Witness for C6: the token fires during the wait between call 2 and
call 3, so only 2 calls are made. -/
theorem C6_cancel_mid_wait_witness :
    (WithRetryBackoff (fun j => decide (j = 1)) maxRetryTimes firstWaitTime
      (pureAttempt (fun _ => false)) ()).calls = 2 :=
  (C6_cancel_mid_wait (fun _ => false) (fun j => decide (j = 1)) 1 (by decide)
    (fun _ _ => rfl) (fun j hj => by simp only [decide_eq_false_iff_not]; omega)
    (by decide)).2

/-- C9: when `backoffScrape` runs for a component of unrecognized kind
and the first dial succeeds, the empty `default` branch of the attempt
closure returns true, so the retry driver reports success after a single
call with no waiting, and the named return — hence the record produced
by `backoffScrape` — is nil rather than a failure report. -/
theorem C9_unknown_kind_silent_success (env : Nat → AttemptEnv)
    (cancel : Nat → Bool) (s : BoState) (hd : (env 0).dialOk = true) :
    (backoffScrapeR Kind.other env cancel s).ok = true ∧
    (backoffScrapeR Kind.other env cancel s).calls = 1 ∧
    (backoffScrapeR Kind.other env cancel s).state.2 = none ∧
    (backoffScrapeR Kind.other env cancel s).waits = 0 := by
  have hstep : (boAttempt Kind.other env 0 (s, none)).2 = true ∧
      (boAttempt Kind.other env 0 (s, none)).1.2 = none := by
    unfold boAttempt attemptStep
    simp [hd]
  have h := retryAux_first_success cancel (boAttempt Kind.other env) 7 0 (s, none)
    hstep.1
  have hR : backoffScrapeR Kind.other env cancel s =
      ⟨(boAttempt Kind.other env 0 (s, none)).1, true, 1, 0⟩ := h
  rw [hR]
  exact ⟨rfl, rfl, hstep.2, rfl⟩

/-- Witness for C9 with a successful first dial. -/
theorem C9_unknown_kind_silent_success_witness :
    (backoffScrapeR Kind.other (fun _ => ⟨true, false, none⟩) (fun _ => false)
      initState).ok = true :=
  (C9_unknown_kind_silent_success (fun _ => ⟨true, false, none⟩) (fun _ => false)
    initState rfl).1

/-- C2: for every attempt-outcome sequence in which the attempt
function fails on every call — whether the dial, the kind-specific
Subscribe call, or the first `Recv` fails, in any combination — with no
cancellation, the retry driver invoked by `backoffScrape` with
`maxRetryTimes = 8` reports failure after exactly 8 calls, never more,
for both target kinds and from any starting connection state; the
record `backoffScrape` then returns is nil at the kind-specific
wrapper interface (including when a `Recv` failure stored a typed nil
record), so `scrapeTiDBRecord` / `scrapeTiKVRecord` return the terminal
nil and both drain loops exit permanently, having consumed zero
records, whatever fuel remains. -/
theorem C2_exhaustion_terminates_drain (ienv : Nat → IterEnv) (s : BoState)
    (hf : ∀ i j, attemptFails ((ienv i).attempts j))
    (hc : ∀ i j, (ienv i).cancel j = false) :
    (backoffScrapeR Kind.tidb (ienv 0).attempts (ienv 0).cancel s).ok = false ∧
    (backoffScrapeR Kind.tidb (ienv 0).attempts (ienv 0).cancel s).calls = 8 ∧
    scrapeTiDBRecordOf
      (backoffScrape Kind.tidb (ienv 0).attempts (ienv 0).cancel s).2 = none ∧
    (backoffScrapeR Kind.tikv (ienv 0).attempts (ienv 0).cancel s).ok = false ∧
    (backoffScrapeR Kind.tikv (ienv 0).attempts (ienv 0).cancel s).calls = 8 ∧
    scrapeTiKVRecordOf
      (backoffScrape Kind.tikv (ienv 0).attempts (ienv 0).cancel s).2 = none ∧
    (∀ fuel, scrapeTiDB ienv (fuel + 1) =
      some (0, (close (scrapeStepTiDB ienv 0 initState).1).1)) ∧
    (∀ fuel, scrapeTiKV ienv (fuel + 1) =
      some (0, (close (scrapeStepTiKV ienv 0 initState).1).1)) := by
  have hT := fun (t : BoState) => retryAux_allFail (ienv 0).cancel
    (boAttempt Kind.tidb (ienv 0).attempts)
    (fun p => scrapeTiDBRecordOf p.2 = none)
    (fun i p => attemptStep_fails_tidb (ienv 0).attempts i p.1 p.2 (hf 0 i))
    (fun i p hp => attemptStep_record_nil_tidb (ienv 0).attempts i p.1 p.2 (hf 0 i) hp)
    (hc 0) maxRetryTimes (by decide) 0 (t, none) rfl
  have hK := fun (t : BoState) => retryAux_allFail (ienv 0).cancel
    (boAttempt Kind.tikv (ienv 0).attempts)
    (fun p => scrapeTiKVRecordOf p.2 = none)
    (fun i p => attemptStep_fails_tikv (ienv 0).attempts i p.1 p.2 (hf 0 i))
    (fun i p hp => attemptStep_record_nil_tikv (ienv 0).attempts i p.1 p.2 (hf 0 i) hp)
    (hc 0) maxRetryTimes (by decide) 0 (t, none) rfl
  refine ⟨(hT s).1, (hT s).2.1, (hT s).2.2, (hK s).1, (hK s).2.1, (hK s).2.2, ?_, ?_⟩
  · intro fuel
    have hstep : (scrapeStepTiDB ienv 0 initState).2 = none := (hT initState).2.2
    unfold scrapeTiDB
    simp only [drainAux, hstep]
  · intro fuel
    have hstep : (scrapeStepTiKV ienv 0 initState).2 = none := (hK initState).2.2
    unfold scrapeTiKV
    simp only [drainAux, hstep]

/-- Witness for C2 with every attempt failing at the `Recv` step (the
typed-nil-record exhaustion sequence). -/
theorem C2_exhaustion_terminates_drain_witness :
    (backoffScrapeR Kind.tidb (fun _ => ⟨true, true, none⟩) (fun _ => false)
      initState).calls = 8 :=
  (C2_exhaustion_terminates_drain
    (fun _ => ⟨none, fun _ => ⟨true, true, none⟩, fun _ => false⟩) initState
    (fun _ _ => Or.inr (Or.inr rfl)) (fun _ _ => rfl)).2.1

end Mockngm
